import Mathlib

/-!
Verification development for the qmlutil CSS3.0 → QuakeML conversion engine.

The Python source is embedded shallowly:

* Python strings are `List Char` (named `Str` below); string literals are
  introduced through named constants built from `String.data`.
* Python floats are modelled as `ℚ`; the transcendental operations used by
  the uncertainty-ellipse math (`math.sqrt`, `math.cos`, `math.sin`,
  `math.pi`) are kept uninterpreted, packaged in an `RMath` record, so that
  every statement quantifies over their interpretation.
* A missing column of a database record is `Option.none`; Python `dict.get`
  is plain field access of an `Option`-valued structure field.
* Code that can raise returns `Except PyErr _`; total code returns plainly.
* `uuid.uuid4()` is modelled by an abstract string carried in the converter
  context (the random fallback is never exercised by the proved claims).
-/

namespace Qmlutil

/-- Python strings, modelled as lists of characters. -/
abbrev Str := List Char

/- String literal constants used by the embedded code. -/

def sAutomatic : Str := "automatic".data

def sManual : Str := "manual".data

def sPreliminary : Str := "preliminary".data

def sReviewed : Str := "reviewed".data

def sNotReported : Str := "not reported".data

def sColon : Str := ":".data

def sSlash : Str := "/".data

def sHash : Str := "#".data

def sDash : Str := "-".data

def sNone : Str := "None".data

def sOriginSlash : Str := "origin/".data

def sNetmagSlash : Str := "netmag/".data

def sEventSlash : Str := "event/".data

def sFplaneSlash : Str := "fplane/".data

def sMtSlash : Str := "mt/".data

def sArrivalSlash : Str := "arrival/".data

def sAssocSlash : Str := "assoc/".data

def sVmodelSlash : Str := "vmodel/".data

def sWfdiscSlash : Str := "wfdisc/".data

def sStamagSlash : Str := "stamag/".data

def sOriginDash : Str := "origin-".data

def sOrb : Str := "orb".data

def sOrbassoc : Str := "orbassoc".data

def sImpulsive : Str := "impulsive".data

def sEmergent : Str := "emergent".data

def sQuestionable : Str := "questionable".data

def sPositive : Str := "positive".data

def sNegative : Str := "negative".data

def sUndecidable : Str := "undecidable".data

def sUncEllipse : Str := "uncertainty ellipse".data

def sSmi : Str := "smi".data

def sLocal : Str := "local".data

def sMl : Str := "ml".data

def sMb : Str := "mb".data

def sMs : Str := "ms".data

def sTensor : Str := "tensor".data

def sFocalmech : Str := "focalmech".data

def sMsgNeedOrid : Str := "Need to specify an ORID or EVID".data

def sMsgNoOrigins : Str := "No origins for ORID: ".data

def sMsgNoMT : Str := "No moment tensor support yet".data

/-- Decimal representation of a natural number (Python `str` of an int). -/
def natStr (n : Nat) : Str := (Nat.repr n).data

/-- Python `str(x)` for an optional integer (`str(None) == "None"`). -/
def optNatStr : Option Nat → Str
  | some n => natStr n
  | none => sNone

/-- Python truthiness of an optional integer: `None` and `0` are falsy. -/
def pyTruthyNat : Option Nat → Bool
  | some n => n != 0
  | none => false

/-- Python truthiness of an optional float: `None` and `0.0` are falsy. -/
def pyTruthyQ : Option ℚ → Bool
  | some x => x != 0
  | none => false

/-- Python truthiness of an optional string: `None` and `""` are falsy. -/
def pyTruthyStr : Option Str → Bool
  | some s => !s.isEmpty
  | none => false

/-- Python `a or b` for optional strings (`a` unless it is falsy). -/
def pyOrStr (a : Option Str) (b : Str) : Str :=
  match a with
  | some s => if s.isEmpty then b else s
  | none => b

/-- Python `a or b` where both operands are optional strings. -/
def pyOrOptStr (a b : Option Str) : Option Str :=
  match a with
  | some s => if s.isEmpty then b else some s
  | none => b

/-- Python `a or b` for an optional float with float default. -/
def pyOrQ (a : Option ℚ) (b : ℚ) : ℚ :=
  match a with
  | some x => if x = 0 then b else x
  | none => b

/-- Python `a or b` where both operands are optional integers. -/
def pyOrOptNat (a b : Option Nat) : Option Nat :=
  match a with
  | some n => if n = 0 then b else some n
  | none => b

/-- Embeds `qmlutil.css.css2qml._str`: string coercion, `None` becomes `""`. -/
def pyStrOf : Option Str → Str
  | some s => s
  | none => []

/-- Python exception classes raised by the embedded code. -/
inductive PyErr where
  | valueError : Str → PyErr
  | typeError : PyErr
  | attributeError : PyErr
  | keyError : PyErr
  | notImplementedError : Str → PyErr
  deriving DecidableEq, Repr

/-- A QuakeML Quantity mapping: the raw `{value: ..., uncertainty: ...}` dict;
either key may hold a null. -/
structure Quan (α β : Type) where
  value : Option α
  uncertainty : Option β
  deriving DecidableEq, Repr

/-- Embeds `qmlutil.css.css2qml._quan`: build the Quantity dict only if the entry for
key `value` is not `None`. -/
def _quan (v : Option α) (u : Option β) : Option (Quan α β) :=
  match v with
  | none => none
  | some x => some ⟨some x, u⟩

/-- Embeds `qmlutil.css.css2qml._km2m`: kilometres to metres when not `None`. -/
def _km2m (dist : Option ℚ) : Option ℚ := dist.map (· * 1000)

/-- Uninterpreted real-math primitives (`math.sqrt`/`cos`/`sin`/`pi`); the
embedding quantifies over their interpretation on `ℚ`. -/
structure RMath where
  sqrt : ℚ → ℚ
  cos : ℚ → ℚ
  sin : ℚ → ℚ
  pi : ℚ

/-- Embeds `math.radians`: degrees to radians. -/
def radians (R : RMath) (x : ℚ) : ℚ := x * R.pi / 180

/-- Embeds `qmlutil.css.css2qml._m2deg_lat`: metres north to latitude degrees. -/
def _m2deg_lat (dist : ℚ) : ℚ := dist / 110600

/-- Embeds `qmlutil.css.css2qml._m2deg_lon`: metres east to longitude degrees at a
given latitude (division is the total field division of `ℚ`). -/
def _m2deg_lon (R : RMath) (dist : ℚ) (lat : ℚ) : ℚ :=
  dist / (R.pi / 180) / 6367449 / R.cos (radians R lat)

/-- Embeds `qmlutil.css.css2qml._eval_ellipse`: radius of the ellipse with semi-axes
`a`, `b` at angle `angle` from the major axis. -/
def _eval_ellipse (R : RMath) (a b angle : ℚ) : ℚ :=
  a * b / R.sqrt ((b * R.cos (radians R angle)) ^ 2 +
                  (a * R.sin (radians R angle)) ^ 2)

/-- Embeds `qmlutil.css.css2qml._get_NE_on_ellipse`: north and east solutions. -/
def _get_NE_on_ellipse (R : RMath) (A B strike : ℚ) : ℚ × ℚ :=
  (_eval_ellipse R A B strike, _eval_ellipse R A B (strike - 90))

/-- Embeds `qmlutil.core.ResourceURIGenerator` configuration (schema, authority). -/
structure RidGen where
  schema : Str
  authority_id : Str
  deriving DecidableEq, Repr

/-- Embeds `ResourceURIGenerator.__call__`: build
`"{schema}:{authority_id}/{resource_id}"`, appending `"#{local_id}"` when a
truthy local id is supplied.  A falsy `resource_id` is replaced by the
supplied `uuid` string (stand-in for `uuid.uuid4()`). -/
def ridCall (g : RidGen) (uuid : Str) (resource_id : Option Str)
    (local_id : Option Str) (authority_id : Option Str)
    (schemaOv : Option Str) : Str :=
  let rid : Str :=
    match resource_id with
    | none => uuid
    | some r => if r.isEmpty then uuid else r
  let sch := pyOrStr schemaOv g.schema
  let aid := pyOrStr authority_id g.authority_id
  let base := sch ++ sColon ++ aid ++ sSlash ++ rid
  match local_id with
  | none => base
  | some l => if l.isEmpty then base else base ++ sHash ++ l

/- Default CSS3.0 etype → QuakeML event type map (`ETYPE_MAP`). -/

def sQb : Str := "qb".data

def sQuarryBlast : Str := "quarry blast".data

def sEqCode : Str := "eq".data

def sEarthquake : Str := "earthquake".data

def sMe : Str := "me".data

def sMeteorite : Str := "meteorite".data

def sEx : Str := "ex".data

def sExplosion : Str := "explosion".data

def sO : Str := "o".data

def sOtherEvent : Str := "other event".data

def sLlower : Str := "l".data

def sRlower : Str := "r".data

def sTlower : Str := "t".data

def sFlower : Str := "f".data

/-- Embeds `qmlutil.css.css2qml.ETYPE_MAP`: default etype to event-type pairs. -/
def ETYPE_MAP : List (Str × Str) :=
  [(sQb, sQuarryBlast), (sEqCode, sEarthquake), (sMe, sMeteorite),
   (sEx, sExplosion), (sO, sOtherEvent), (sLlower, sEarthquake),
   (sRlower, sEarthquake), (sTlower, sEarthquake), (sFlower, sEarthquake)]

/-- Lookup in a Python dict built from an association list: the last pair
with a given key wins. -/
def dictGet (pairs : List (Str × Str)) (key : Str) : Option Str :=
  (pairs.reverse.find? (fun p => p.1 == key)).map (·.2)

/-- Embeds `str.lower` (per character, as for the ASCII data involved). -/
def pyLower (s : Str) : Str := s.map Char.toLower

/-- Embeds `str.upper` (per character, as for the ASCII data involved). -/
def pyUpper (s : Str) : Str := s.map Char.toUpper

/-- Converter configuration and ambient effects of `CSSToQMLConverter`:
the resource-id factory configuration, an abstract `uuid.uuid4()` outcome,
the agency code, the automatic-author list, the custom etype map given at
construction, the `_utc` timestamp formatter and the real-math primitives. -/
structure Ctx where
  gen : RidGen
  uuid : Str
  agency : Str
  automatic_authors : List Str
  etype_custom : List (Str × Str)
  utc : Option ℚ → Option Str
  R : RMath

/-- Embeds `CSSToQMLConverter._uri(obj)` for a non-null object. -/
def uriOf (ctx : Ctx) (rid : Str) : Str :=
  ridCall ctx.gen ctx.uuid (some rid) none none none

/-- Embeds `CSSToQMLConverter._uri(obj, local_id=lid)`. -/
def uriLocalOf (ctx : Ctx) (rid lid : Str) : Str :=
  ridCall ctx.gen ctx.uuid (some rid) (some lid) none none

/-- Embeds `CSSToQMLConverter._uri(obj, schema="smi")`. -/
def uriSmiOf (ctx : Ctx) (rid : Str) : Str :=
  ridCall ctx.gen ctx.uuid (some rid) none none (some sSmi)

/-- Embeds `CSSToQMLConverter._uri(obj, authority_id="local", schema="smi")`. -/
def uriLocalSmiOf (ctx : Ctx) (rid : Str) : Str :=
  ridCall ctx.gen ctx.uuid (some rid) none (some sLocal) (some sSmi)

/-- Python substring test `needle in hay`. -/
def strContains (needle hay : Str) : Bool := decide (needle <:+: hay)

/-- Embeds `CSSToQMLConverter.get_event_status`: scan the automatic-author list;
an empty posted author or a configured substring of it classifies as
automatic/preliminary, the fall-through is manual/reviewed. -/
def get_event_status (autos : List Str) (posted_author : Str) : Str × Str :=
  match autos with
  | [] => (sManual, sReviewed)
  | a :: rest =>
    if posted_author.isEmpty || strContains a posted_author then
      (sAutomatic, sPreliminary)
    else get_event_status rest posted_author

/-- Embeds `CSSToQMLConverter.get_event_type` (css2qml variant): look the etype up
in the default map updated with the construction-time custom map, with the
default `"not reported"`. -/
def get_event_type (ctx : Ctx) (etype : Str) : Str :=
  match dictGet ctx.etype_custom etype with
  | some v => v
  | none =>
    match dictGet ETYPE_MAP etype with
    | some v => v
    | none => sNotReported

/-- Embeds `qmlutil.core.find_preferred_mag` magnitude records: a dict holding a
`@publicID` and possibly a `type`. -/
structure MagRec where
  type : Option Str
  publicID : Str
  deriving DecidableEq, Repr

/-- The `types` dict of `find_preferred_mag`: lowercased type → publicID of
the last record of that type (Python dict construction, last pair wins). -/
def magTypesGet (mags : List MagRec) (key : Str) : Option Str :=
  (((mags.map (fun m => (pyLower (pyStrOf m.type), m.publicID))).reverse.find?
      (fun p => p.1 == key)).map (·.2))

/-- Embeds `qmlutil.core.find_preferred_mag`: walk the priority list in order and
return the first hit in the `types` dict, else `None`. -/
def find_preferred_mag (mags : List MagRec) (prefmaglist : List Str) :
    Option Str :=
  match prefmaglist with
  | [] => none
  | p :: rest =>
    match magTypesGet mags (pyLower p) with
    | some pid => some pid
    | none => find_preferred_mag mags rest

/- Output entity structures (QuakeML nested dicts). -/

/-- QuakeML CreationInfo block. -/
structure CreationInfo where
  creationTime : Option Str
  agencyID : Str
  author : Option Str
  version : Option Str
  deriving DecidableEq, Repr

/-- QuakeML origin quality block. -/
structure Quality where
  standardError : Option ℚ
  usedPhaseCount : Option ℚ
  associatedPhaseCount : Option ℚ
  deriving DecidableEq, Repr

/-- QuakeML originUncertainty block. -/
structure OriginUnc where
  preferredDescription : Str
  maxHorizontalUncertainty : ℚ
  minHorizontalUncertainty : ℚ
  azimuthMaxHorizontalUncertainty : ℚ
  confidenceLevel : Option ℚ
  deriving DecidableEq, Repr

/-- QuakeML waveformID attribute block of a Pick. -/
structure Waveform where
  stationCode : Option Str
  channelCode : Option Str
  networkCode : Str
  locationCode : Str
  text : Str
  deriving DecidableEq, Repr

/-- QuakeML Arrival (from a CSS assoc row). -/
structure Arrival where
  publicID : Str
  pickID : Str
  phase : Option Str
  azimuth : Option ℚ
  distance : Option ℚ
  timeResidual : Option ℚ
  timeWeight : Option ℚ
  earthModelID : Str
  creationInfo : CreationInfo
  cssTimedef : Str
  deriving DecidableEq, Repr

/-- QuakeML Origin. -/
structure Origin where
  publicID : Str
  latitude : Option (Quan ℚ ℚ)
  longitude : Option (Quan ℚ ℚ)
  depth : Option (Quan ℚ ℚ)
  time : Option (Quan Str ℚ)
  quality : Quality
  originUncertainty : Option OriginUnc
  evaluationMode : Str
  evaluationStatus : Str
  creationInfo : CreationInfo
  arrival : List Arrival
  cssEtype : Str
  deriving DecidableEq, Repr

/-- QuakeML Pick. -/
structure Pick where
  publicID : Str
  time : Option (Quan Str ℚ)
  waveformID : Waveform
  phaseHint : Option Str
  polarity : Option Str
  onset : Option Str
  backazimuth : Option (Quan ℚ ℚ)
  horizontalSlowness : Option (Quan ℚ ℚ)
  creationInfo : CreationInfo
  evaluationMode : Str
  evaluationStatus : Str
  deriving DecidableEq, Repr

/-- QuakeML Magnitude (network or origin-embedded variant; the
origin-embedded variant carries no evaluationMode and no stationCount). -/
structure Magnitude where
  publicID : Str
  mag : Option (Quan ℚ ℚ)
  type : Option Str
  stationCount : Option ℚ
  originID : Str
  evaluationMode : Option Str
  evaluationStatus : Str
  creationInfo : CreationInfo
  deriving DecidableEq, Repr

/-- QuakeML StationMagnitude. -/
structure StationMagnitude where
  publicID : Str
  mag : Quan ℚ ℚ
  type : Option Str
  creationInfo : CreationInfo
  originID : Str
  deriving DecidableEq, Repr

/-- One nodal plane (strike/dip/rake as raw value dicts). -/
structure Plane where
  strike : Quan ℚ ℚ
  dip : Quan ℚ ℚ
  rake : Quan ℚ ℚ
  deriving DecidableEq, Repr

/-- QuakeML nodalPlanes block. -/
structure NodalPlanes where
  nodalPlane1 : Plane
  nodalPlane2 : Plane
  preferredPlane : Nat
  deriving DecidableEq, Repr

/-- One principal axis (length only present for the mt variant). -/
structure Axis where
  azimuth : Quan ℚ ℚ
  plunge : Quan ℚ ℚ
  length : Option (Quan ℚ ℚ)
  deriving DecidableEq, Repr

/-- QuakeML principalAxes block (nAxis only present for the mt variant). -/
structure PrincipalAxes where
  tAxis : Axis
  pAxis : Axis
  nAxis : Option Axis
  deriving DecidableEq, Repr

/-- QuakeML moment tensor components (raw value dicts). -/
structure Tensor where
  mrr : Quan ℚ ℚ
  mtt : Quan ℚ ℚ
  mpp : Quan ℚ ℚ
  mrt : Quan ℚ ℚ
  mrp : Quan ℚ ℚ
  mtp : Quan ℚ ℚ
  deriving DecidableEq, Repr

/-- QuakeML MomentTensor sub-entity. -/
structure MomentTensor where
  publicID : Str
  derivedOriginID : Str
  scalarMoment : Option (Quan ℚ ℚ)
  doubleCouple : Option ℚ
  tensor : Tensor
  creationInfo : CreationInfo
  deriving DecidableEq, Repr

/-- QuakeML FocalMechanism. -/
structure FocalMech where
  publicID : Str
  triggeringOriginID : Str
  nodalPlanes : NodalPlanes
  principalAxes : PrincipalAxes
  momentTensor : Option MomentTensor
  creationInfo : CreationInfo
  evaluationMode : Option Str
  evaluationStatus : Option Str
  deriving DecidableEq, Repr

/-- QuakeML Event. -/
structure Event where
  publicID : Str
  type : Str
  creationInfo : CreationInfo
  preferredOriginID : Option Str
  catalogEventid : Option Str
  catalogDataid : Option Str
  catalogEventsource : Option Str
  catalogDatasource : Option Str
  origin : Option (List Origin)
  magnitude : Option (List Magnitude)
  pick : Option (List Pick)
  focalMechanism : Option (List FocalMech)
  deriving DecidableEq, Repr

/- Input record structures (CSS3.0 rows, possibly joined views).  A missing
or null column is `none`. -/

/-- A CSS origin row outer-joined with origerr. -/
structure OriginRow where
  lat : Option ℚ
  lon : Option ℚ
  depth : Option ℚ
  time : Option ℚ
  nass : Option ℚ
  ndef : Option ℚ
  sdobs : Option ℚ
  smajax : Option ℚ
  sminax : Option ℚ
  strike : Option ℚ
  sdepth : Option ℚ
  stime : Option ℚ
  conf : Option ℚ
  lddate : Option ℚ
  ml : Option ℚ
  mb : Option ℚ
  ms : Option ℚ
  orid : Option Nat
  evid : Option Nat
  mlid : Option Nat
  mbid : Option Nat
  msid : Option Nat
  etype : Option Str
  auth : Option Str
  deriving DecidableEq, Repr

/-- A CSS event row (`map_event` also accepts an origin row). -/
structure EventRow where
  evid : Option Nat
  orid : Option Nat
  prefor : Option Nat
  lddate : Option ℚ
  deriving DecidableEq, Repr

/-- A CSS netmag row. -/
structure NetmagRow where
  magid : Option Nat
  orid : Option Nat
  magnitude : Option ℚ
  uncertainty : Option ℚ
  nsta : Option ℚ
  lddate : Option ℚ
  magtype : Option Str
  auth : Option Str
  deriving DecidableEq, Repr

/-- A CSS assoc–arrival–snetsta–schanloc joined row. -/
structure PhaseRow where
  sta : Option Str
  chan : Option Str
  fsta : Option Str
  fchan : Option Str
  snet : Option Str
  loc : Option Str
  qual : Option Str
  fm : Option Str
  auth : Option Str
  iphase : Option Str
  phase : Option Str
  timedef : Option Str
  vmodel : Option Str
  time : Option ℚ
  deltim : Option ℚ
  azimuth : Option ℚ
  delaz : Option ℚ
  slow : Option ℚ
  delslo : Option ℚ
  esaz : Option ℚ
  delta : Option ℚ
  timeres : Option ℚ
  wgt : Option ℚ
  lddate : Option ℚ
  arrivalLddate : Option ℚ
  arid : Option Nat
  orid : Option Nat
  deriving DecidableEq, Repr

/-- A CSS fplane row. -/
structure FplaneRow where
  orid : Option Nat
  mechid : Option Nat
  mtid : Option Nat
  algorithm : Option Str
  auth : Option Str
  str1 : Option ℚ
  dip1 : Option ℚ
  rake1 : Option ℚ
  str2 : Option ℚ
  dip2 : Option ℚ
  rake2 : Option ℚ
  taxazm : Option ℚ
  taxplg : Option ℚ
  paxazm : Option ℚ
  paxplg : Option ℚ
  lddate : Option ℚ
  deriving DecidableEq, Repr

/-- A BRTT CSS mt row. -/
structure MtRow where
  orid : Option Nat
  mtid : Option Nat
  auth : Option Str
  rstatus : Option Str
  estatus : Option Str
  scm : Option ℚ
  pdc : Option ℚ
  tmrr : Option ℚ
  tmtt : Option ℚ
  tmpp : Option ℚ
  tmrt : Option ℚ
  tmrp : Option ℚ
  tmtp : Option ℚ
  str1 : Option ℚ
  dip1 : Option ℚ
  rake1 : Option ℚ
  str2 : Option ℚ
  dip2 : Option ℚ
  rake2 : Option ℚ
  taxazm : Option ℚ
  taxplg : Option ℚ
  taxlength : Option ℚ
  paxazm : Option ℚ
  paxplg : Option ℚ
  paxlength : Option ℚ
  naxazm : Option ℚ
  naxplg : Option ℚ
  naxlength : Option ℚ
  lddate : Option ℚ
  deriving DecidableEq, Repr

/-- A CSS stamag row. -/
structure StamagRow where
  sta : Option Str
  magtype : Option Str
  auth : Option Str
  orid : Option Nat
  magid : Option Nat
  magnitude : Option ℚ
  uncertainty : Option ℚ
  lddate : Option ℚ
  deriving DecidableEq, Repr

/-- Embeds `db.get(key) or uuid.uuid4()` rendered into an id string: a truthy
integer key prints as its decimal digits, otherwise the uuid stand-in. -/
def pyKey (o : Option Nat) (uuid : Str) : Str :=
  match o with
  | some n => if n = 0 then uuid else natStr n
  | none => uuid

def sD : Str := "d".data

def sN : Str := "n".data

/-- Embeds `TIMEDEF_WEIGHT`: default time weight from the timedef flag. -/
def timedefWeight (s : Str) : Option ℚ :=
  if s = sD then some 1 else if s = sN then some 0 else none

/-- Python `"{0}".format(x)` of an optional string (`None` prints "None"). -/
def optStr : Option Str → Str
  | some s => s
  | none => sNone

/-- Embeds `a or b` on optional floats (`0.0` is falsy). -/
def pyOrOptQ (a b : Option ℚ) : Option ℚ :=
  match a with
  | some x => if x = 0 then b else some x
  | none => b

/-- Python `int()` of a float: truncation toward zero. -/
def pyInt (q : ℚ) : Int := if 0 ≤ q then ⌊q⌋ else -⌊-q⌋

/-- Decimal representation of an integer. -/
def intStr (i : Int) : Str := i.repr.data

/-- Embeds `"{0:08d}"`: zero-pad a decimal representation to eight digits. -/
def zeroPad8 (n : Nat) : Str :=
  List.replicate (8 - (natStr n).length) '0' ++ natStr n

/-- Embeds `CSSToQMLConverter.map_origin2origin`: map a CSS origin(+origerr) row to
a QuakeML Origin.  The middle of the triple returned by the ellipse branch
carries (latitude-uncertainty, longitude-uncertainty, uncertainty block). -/
def map_origin2origin (ctx : Ctx) (db : OriginRow) : Origin :=
  let css_etype := pyStrOf db.etype
  let posted_author := pyStrOf db.auth
  let ms := get_event_status ctx.automatic_authors posted_author
  let originRid := sOriginSlash ++ pyKey db.orid ctx.uuid
  let ell : Option (ℚ × ℚ × OriginUnc) :=
    match _km2m db.smajax, _km2m db.sminax, db.strike with
    | some a, some b, some s =>
      if a = 0 ∨ b = 0 ∨ s = 0 then none
      else
        let ne := _get_NE_on_ellipse ctx.R a b s
        some (_m2deg_lat ne.1,
              _m2deg_lon ctx.R ne.2 (pyOrQ db.lat 0),
              { preferredDescription := sUncEllipse,
                maxHorizontalUncertainty := a,
                minHorizontalUncertainty := b,
                azimuthMaxHorizontalUncertainty := s,
                confidenceLevel := db.conf.map (· * 100) })
    | _, _, _ => none
  { publicID := uriOf ctx originRid,
    latitude := _quan db.lat (ell.map (·.1)),
    longitude := _quan db.lon (ell.map (·.2.1)),
    depth := _quan (_km2m db.depth) (_km2m db.sdepth),
    time := _quan (ctx.utc db.time) db.stime,
    quality := { standardError := db.sdobs,
                 usedPhaseCount := db.ndef,
                 associatedPhaseCount := db.nass },
    originUncertainty := ell.map (·.2.2),
    evaluationMode := ms.1,
    evaluationStatus := ms.2,
    creationInfo := { creationTime := ctx.utc db.lddate,
                      agencyID := ctx.agency,
                      author := some posted_author,
                      version := db.orid.map natStr },
    arrival := [],
    cssEtype := css_etype }

/-- Embeds `CSSToQMLConverter.origin_event_type` (css2qml variant): resolve the
stored css etype flag of a mapped Origin. -/
def origin_event_type (ctx : Ctx) (o : Origin) : Str :=
  get_event_type ctx o.cssEtype

/-- Embeds `CSSToQMLConverter.map_stamag2stationmagnitude`. -/
def map_stamag2stationmagnitude (ctx : Ctx) (db : StamagRow) :
    StationMagnitude :=
  let originRid := sOriginSlash ++ pyKey db.orid ctx.uuid
  let stamagRid := sStamagSlash ++ optStr db.sta ++ sDash ++
    optStr db.magtype ++ sDash ++ pyKey db.orid ctx.uuid ++ sDash ++
    pyKey db.magid ctx.uuid
  { publicID := uriOf ctx stamagRid,
    mag := { value := db.magnitude, uncertainty := db.uncertainty },
    type := db.magtype,
    creationInfo := { creationTime := ctx.utc db.lddate,
                      agencyID := ctx.agency,
                      author := db.auth,
                      version := db.magid.map natStr },
    originID := uriOf ctx originRid }

/-- Embeds `CSSToQMLConverter.map_netmag2magnitude`: map a netmag row to a QuakeML
Magnitude. -/
def map_netmag2magnitude (ctx : Ctx) (db : NetmagRow) : Magnitude :=
  let posted_author := pyStrOf db.auth
  let ms := get_event_status ctx.automatic_authors posted_author
  let originRid := sOriginSlash ++ pyKey db.orid ctx.uuid
  let netmagRid := sNetmagSlash ++ pyKey db.magid ctx.uuid
  { publicID := uriOf ctx netmagRid,
    mag := _quan db.magnitude db.uncertainty,
    type := db.magtype,
    stationCount := db.nsta,
    originID := uriOf ctx originRid,
    evaluationMode := some ms.1,
    evaluationStatus := ms.2,
    creationInfo := { creationTime := ctx.utc db.lddate,
                      agencyID := ctx.agency,
                      author := some posted_author,
                      version := db.magid.map natStr } }

/-- The origin-table magnitude column selected by a type code. -/
def magCol (db : OriginRow) (mtype : Str) : Option ℚ :=
  if mtype = sMl then db.ml
  else if mtype = sMb then db.mb
  else if mtype = sMs then db.ms
  else none

/-- The origin-table `"{mtype}id"` foreign-key column. -/
def magIdCol (db : OriginRow) (mtype : Str) : Option Nat :=
  if mtype = sMl then db.mlid
  else if mtype = sMb then db.mbid
  else if mtype = sMs then db.msid
  else none

/-- Embeds `CSSToQMLConverter.map_origin2magnitude`: map an origin-embedded
magnitude column to a QuakeML Magnitude.  A null `auth` raises
(`None.startswith` is an AttributeError). -/
def map_origin2magnitude (ctx : Ctx) (db : OriginRow) (mtype : Str) :
    Except PyErr Magnitude :=
  let originRid := sOriginSlash ++ pyKey db.orid ctx.uuid
  let origmagRid :=
    if pyTruthyNat (magIdCol db mtype) then
      sNetmagSlash ++ pyKey (magIdCol db mtype) ctx.uuid
    else
      sOriginDash ++ mtype ++ sSlash ++ pyKey db.orid ctx.uuid
  match db.auth with
  | none => .error .attributeError
  | some author =>
    .ok { publicID := uriOf ctx origmagRid,
          mag := _quan (magCol db mtype) none,
          type := some mtype,
          stationCount := none,
          originID := uriOf ctx originRid,
          evaluationMode := none,
          evaluationStatus :=
            if sOrb.isPrefixOf author then sPreliminary else sReviewed,
          creationInfo := { creationTime := ctx.utc db.lddate,
                            agencyID := ctx.agency,
                            author := some author,
                            version := db.orid.map natStr } }

/-- Embeds `CSSToQMLConverter.map_arrival2pick`: map a joined phase row to a
QuakeML Pick.  A null arrival time raises (`None * 10**6` is a
TypeError). -/
def map_arrival2pick (ctx : Ctx) (db : PhaseRow) : Except PyErr Pick :=
  match db.time with
  | none => .error .typeError
  | some t =>
    let def_net := pyUpper (ctx.agency.take 2)
    let wfRid := sWfdiscSlash ++ optStr db.sta ++ sDash ++ optStr db.chan ++
      sDash ++ intStr (pyInt (t * 1000000))
    let pickRid := sArrivalSlash ++ pyKey db.arid ctx.uuid
    let on_qual := pyLower (pyStrOf db.qual)
    let onset : Option Str :=
      if on_qual.contains 'i' then some sImpulsive
      else if on_qual.contains 'e' then some sEmergent
      else if on_qual.contains 'w' then some sQuestionable
      else none
    let pol := pyLower (pyStrOf db.fm)
    let polarity : Option Str :=
      if pol.contains 'c' || pol.contains 'u' then some sPositive
      else if pol.contains 'd' || pol.contains 'r' then some sNegative
      else if pol.contains '.' then some sUndecidable
      else none
    let pick_mode :=
      if strContains sOrbassoc (pyStrOf db.auth) then sAutomatic else sManual
    let pick_status :=
      if pick_mode = sManual then sReviewed else sPreliminary
    .ok { publicID := uriOf ctx pickRid,
          time := _quan (ctx.utc db.time) db.deltim,
          waveformID := { stationCode := pyOrOptStr db.fsta db.sta,
                          channelCode := pyOrOptStr db.fchan db.chan,
                          networkCode := pyOrStr db.snet def_net,
                          locationCode := pyOrStr db.loc [],
                          text := uriSmiOf ctx wfRid },
          phaseHint := db.iphase,
          polarity := polarity,
          onset := onset,
          backazimuth := _quan db.azimuth db.delaz,
          horizontalSlowness := _quan db.slow db.delslo,
          creationInfo := { creationTime :=
                              ctx.utc (pyOrOptQ db.arrivalLddate db.lddate),
                            agencyID := ctx.agency,
                            author := db.auth,
                            version := db.arid.map natStr },
          evaluationMode := pick_mode,
          evaluationStatus := pick_status }

/-- Embeds `CSSToQMLConverter.map_assoc2arrival`: map a joined phase row to a
QuakeML Arrival, defaulting a missing time weight from the timedef flag. -/
def map_assoc2arrival (ctx : Ctx) (db : PhaseRow) : Arrival :=
  let css_timedef := pyStrOf db.timedef
  let pickRid := sArrivalSlash ++ pyKey db.arid ctx.uuid
  let vmodelRid := sVmodelSlash ++ pyOrStr db.vmodel ctx.uuid
  let assocRid := sAssocSlash ++ pyKey db.orid ctx.uuid ++ sDash ++
    pyKey db.arid ctx.uuid
  let tw : Option ℚ :=
    match db.wgt with
    | some w => some w
    | none => timedefWeight css_timedef
  { publicID := uriOf ctx assocRid,
    pickID := uriOf ctx pickRid,
    phase := db.phase,
    azimuth := db.esaz,
    distance := db.delta,
    timeResidual := db.timeres,
    timeWeight := tw,
    earthModelID := uriLocalSmiOf ctx vmodelRid,
    creationInfo := { creationTime := ctx.utc db.lddate,
                      agencyID := ctx.agency,
                      author := none,
                      version := db.arid.map natStr },
    cssTimedef := css_timedef }

/-- Embeds `CSSToQMLConverter.map_assocarrival2pickarrival`. -/
def map_assocarrival2pickarrival (ctx : Ctx) (db : PhaseRow) :
    Except PyErr (Pick × Arrival) :=
  match map_arrival2pick ctx db with
  | .error e => .error e
  | .ok pick => .ok (pick, map_assoc2arrival ctx db)

/-- Embeds `CSSToQMLConverter.map_fplane2focalmech`: map an fplane row to a
QuakeML FocalMechanism.  A null `algorithm` or `auth` raises
(`":".join` over a `None` is a TypeError); nodal planes and principal
axes are raw value dicts, built even from null columns. -/
def map_fplane2focalmech (ctx : Ctx) (db : FplaneRow) :
    Except PyErr FocalMech :=
  let originRid := sOriginSlash ++ pyKey db.orid ctx.uuid
  let fplaneRid := sFplaneSlash ++ pyKey db.mechid ctx.uuid
  match db.algorithm, db.auth with
  | some alg, some au =>
    let author_string := alg ++ sColon ++ au
    let ms := get_event_status ctx.automatic_authors (pyStrOf db.auth)
    .ok { publicID := uriOf ctx fplaneRid,
          triggeringOriginID := uriOf ctx originRid,
          nodalPlanes := { nodalPlane1 := { strike := ⟨db.str1, none⟩,
                                            dip := ⟨db.dip1, none⟩,
                                            rake := ⟨db.rake1, none⟩ },
                           nodalPlane2 := { strike := ⟨db.str2, none⟩,
                                            dip := ⟨db.dip2, none⟩,
                                            rake := ⟨db.rake2, none⟩ },
                           preferredPlane := 1 },
          principalAxes := { tAxis := { azimuth := ⟨db.taxazm, none⟩,
                                        plunge := ⟨db.taxplg, none⟩,
                                        length := none },
                             pAxis := { azimuth := ⟨db.paxazm, none⟩,
                                        plunge := ⟨db.paxplg, none⟩,
                                        length := none },
                             nAxis := none },
          momentTensor := none,
          creationInfo := { creationTime := ctx.utc db.lddate,
                            agencyID := ctx.agency,
                            author := some author_string,
                            version := db.mtid.map natStr },
          evaluationMode := some ms.1,
          evaluationStatus := some ms.2 }
  | _, _ => .error .typeError

/-- Embeds `CSSToQMLConverter.map_moment2focalmech`: unconditionally raises
NotImplementedError. -/
def map_moment2focalmech (_db : MtRow) : Except PyErr FocalMech :=
  .error (.notImplementedError sMsgNoMT)

/-- The review-status translation dict of `map_mt2focalmech`. -/
def mtModeOf (rstatus : Option Str) : Option Str :=
  match rstatus with
  | some r =>
    if r = sAutomatic then some sAutomatic
    else if r = sManual then some sManual
    else if r = sReviewed then some sManual
    else none
  | none => none

/-- Embeds `CSSToQMLConverter.map_mt2focalmech`: map a BRTT mt row to a QuakeML
FocalMechanism with nested MomentTensor (database rows carry every key, so
the `db['lddate']` item access reads a possibly null value). -/
def map_mt2focalmech (ctx : Ctx) (db : MtRow) : FocalMech :=
  let originRid := sOriginSlash ++ pyKey db.orid ctx.uuid
  let mtRid := sMtSlash ++ pyKey db.mtid ctx.uuid
  let moment_tensor : MomentTensor :=
    { publicID := uriLocalOf ctx mtRid sTensor,
      derivedOriginID := uriOf ctx originRid,
      scalarMoment := _quan db.scm none,
      doubleCouple := db.pdc,
      tensor := { mrr := ⟨db.tmrr, none⟩, mtt := ⟨db.tmtt, none⟩,
                  mpp := ⟨db.tmpp, none⟩, mrt := ⟨db.tmrt, none⟩,
                  mrp := ⟨db.tmrp, none⟩, mtp := ⟨db.tmtp, none⟩ },
      creationInfo := { creationTime := ctx.utc db.lddate,
                        agencyID := ctx.agency,
                        author := db.auth,
                        version := db.mtid.map natStr } }
  { publicID := uriLocalOf ctx mtRid sFocalmech,
    triggeringOriginID := uriOf ctx originRid,
    nodalPlanes := { nodalPlane1 := { strike := ⟨db.str1, none⟩,
                                      dip := ⟨db.dip1, none⟩,
                                      rake := ⟨db.rake1, none⟩ },
                     nodalPlane2 := { strike := ⟨db.str2, none⟩,
                                      dip := ⟨db.dip2, none⟩,
                                      rake := ⟨db.rake2, none⟩ },
                     preferredPlane := 1 },
    principalAxes := { tAxis := { azimuth := ⟨db.taxazm, none⟩,
                                  plunge := ⟨db.taxplg, none⟩,
                                  length := some ⟨db.taxlength, none⟩ },
                       pAxis := { azimuth := ⟨db.paxazm, none⟩,
                                  plunge := ⟨db.paxplg, none⟩,
                                  length := some ⟨db.paxlength, none⟩ },
                       nAxis := some { azimuth := ⟨db.naxazm, none⟩,
                                       plunge := ⟨db.naxplg, none⟩,
                                       length := some ⟨db.naxlength, none⟩ } },
    momentTensor := some moment_tensor,
    creationInfo := { creationTime := ctx.utc db.lddate,
                      agencyID := ctx.agency,
                      author := db.auth,
                      version := db.mtid.map natStr },
    evaluationMode := db.rstatus,
    evaluationStatus := db.estatus }

/-- Embeds `CSSToQMLConverter.map_event`: map an event (or origin) row to a
QuakeML Event; with `anss` set, a null evid makes the `"{0:08d}"` catalog
formatting raise. -/
def map_event (ctx : Ctx) (db : EventRow) (anss : Bool) :
    Except PyErr Event :=
  let evid := db.evid
  let prefor := pyOrOptNat db.prefor db.orid
  let eventRid := sEventSlash ++ optNatStr evid
  let base : Event :=
    { publicID := uriOf ctx eventRid,
      type := sNotReported,
      creationInfo := { creationTime := ctx.utc db.lddate,
                        agencyID := ctx.agency,
                        author := none,
                        version := some (optNatStr evid) },
      preferredOriginID :=
        if pyTruthyNat prefor then
          some (uriOf ctx (sOriginSlash ++ pyKey prefor ctx.uuid))
        else none,
      catalogEventid := none, catalogDataid := none,
      catalogEventsource := none, catalogDatasource := none,
      origin := none, magnitude := none, pick := none,
      focalMechanism := none }
  if anss then
    match evid with
    | none => .error .typeError
    | some e =>
      .ok { base with
        catalogEventid := some (zeroPad8 e),
        catalogDataid := some (pyLower ctx.agency ++ zeroPad8 e),
        catalogEventsource := some (pyLower ctx.agency),
        catalogDatasource := some (pyLower ctx.agency) }
  else .ok base

/-- A Python list comprehension over fallible element conversions: the
first raised exception propagates, otherwise the list of results. -/
def mapExcept {ε α β : Type} (f : α → Except ε β) :
    List α → Except ε (List β)
  | [] => .ok []
  | a :: as =>
    match f a with
    | .error e => .error e
    | .ok b =>
      match mapExcept f as with
      | .error e => .error e
      | .ok bs => .ok (b :: bs)

/-- Embeds `qmlutil.aux.antelope.DatabaseConverter` together with its database
connection.  Each Datascope query issued by the class is modelled as an
abstract function from its key to the already-materialised row list (the
database is an external collaborator; row order reflects the query's
sort). -/
structure DBConv where
  /-- rows of `dbopen origin | dbjoin -o origerr | dbsubset orid== | dbsort -r lddate`. -/
  originsByOrid : Nat → List OriginRow
  /-- rows of the same view subset by evid. -/
  originsByEvid : Nat → List OriginRow
  /-- Embeds `fetchone` of `dbopen origin | dbsubset orid==`. -/
  originRowByOrid : Nat → Option OriginRow
  /-- result of `_evid`: the evid of the first origin row for an orid. -/
  evidOfOrid : Nat → Option Nat
  /-- Embeds `fetchone` of `dbopen event | dbsubset evid==`. -/
  eventRowByEvid : Option Nat → Option EventRow
  /-- rows of `dbopen netmag | dbsubset orid== | dbsort -r lddate`. -/
  netmagsByOrid : Nat → List NetmagRow
  /-- rows of the assoc–arrival join subset by orid. -/
  phaseRowsByOrid : Nat → List PhaseRow
  /-- rows of `dbopen fplane | dbsubset orid== | dbsort -r lddate`. -/
  fplanesByOrid : Nat → List FplaneRow
  /-- rows of `dbopen mt | dbsubset orid== | dbsort -r lddate`. -/
  mtsByOrid : Nat → List MtRow
  /-- Modelled from the spec: `get_quality_from_arrival` (recomputed origin
  quality metrics merged into the quality block) is referenced through the
  package root but its definition is not under src; its merged result is
  kept abstract as a function of the arrival list and the prior quality. -/
  qualityFromArrival : List Arrival → Quality → Quality

/-- Embeds `DatabaseConverter.get_event`: resolve an evid (from the orid when only
a truthy orid is given), fetch the event row and map it. -/
def get_event (d : DBConv) (ctx : Ctx) (orid evid : Option Nat)
    (anss : Bool) : Except PyErr (Option Event) :=
  let evidEff : Option Nat :=
    match orid with
    | some o => if o != 0 && !(pyTruthyNat evid) then d.evidOfOrid o else evid
    | none => evid
  match d.eventRowByEvid evidEff with
  | none => .ok none
  | some row =>
    match map_event ctx row anss with
    | .error e => .error e
    | .ok ev => .ok (some ev)

/-- Embeds `DatabaseConverter.get_event_from_origin`: fall back to mapping the
origin row itself as the event. -/
def get_event_from_origin (d : DBConv) (ctx : Ctx) (orid : Nat)
    (anss : Bool) : Except PyErr (Option Event) :=
  match d.originRowByOrid orid with
  | none => .ok none
  | some row =>
    match map_event ctx { evid := row.evid, orid := row.orid, prefor := none,
                          lddate := row.lddate } anss with
    | .error e => .error e
    | .ok ev => .ok (some ev)

/-- Embeds `DatabaseConverter.get_origins`: select by orid, else by evid, else
raise `ValueError("Need to specify an ORID or EVID")`. -/
def get_origins (d : DBConv) (ctx : Ctx) (orid evid : Option Nat) :
    Except PyErr (List Origin) :=
  match orid with
  | some o => .ok ((d.originsByOrid o).map (map_origin2origin ctx))
  | none =>
    match evid with
    | some e => .ok ((d.originsByEvid e).map (map_origin2origin ctx))
    | none => .error (.valueError sMsgNeedOrid)

/-- Embeds `DatabaseConverter.get_magnitudes`: prefer netmag rows; fall back to
the `ml`/`mb`/`ms` columns of the origin row (each truthy column yields one
origin-embedded magnitude). -/
def get_magnitudes (d : DBConv) (ctx : Ctx) (orid : Nat) :
    Except PyErr (List Magnitude) :=
  let netmags := d.netmagsByOrid orid
  if netmags.isEmpty then
    match d.originRowByOrid orid with
    | none => .ok []
    | some db =>
      mapExcept (fun t => map_origin2magnitude ctx db t)
        ([sMl, sMb, sMs].filter (fun t => pyTruthyQ (magCol db t)))
  else .ok (netmags.map (map_netmag2magnitude ctx))

/-- Embeds `DatabaseConverter.get_phases` composed with `convert_phases`: one
(pick, arrival) pair per joined row. -/
def get_phases (d : DBConv) (ctx : Ctx) (orid : Nat) :
    Except PyErr (List (Pick × Arrival)) :=
  mapExcept (map_assocarrival2pickarrival ctx) (d.phaseRowsByOrid orid)

/-- Embeds `DatabaseConverter.get_focalmechs` (fplane table). -/
def get_focalmechs (d : DBConv) (ctx : Ctx) (orid : Nat) :
    Except PyErr (List FocalMech) :=
  mapExcept (map_fplane2focalmech ctx) (d.fplanesByOrid orid)

/-- Embeds `DatabaseConverter.get_mts` (mt table). -/
def get_mts (d : DBConv) (ctx : Ctx) (orid : Nat) : List FocalMech :=
  (d.mtsByOrid orid).map (map_mt2focalmech ctx)

/-- Embeds `DatabaseConverter.get_station_magnitudes`: the converter class defines
no `convert_magnitudes` method, so the final attribute access raises
AttributeError on every call. -/
def get_station_magnitudes (_d : DBConv) (_ctx : Ctx) (_orid : Nat) :
    Except PyErr (List StationMagnitude) :=
  .error .attributeError

/-- The event lookup of `extract_origin`: `get_event`, falling back to
`get_event_from_origin` when no event row exists. -/
def eventChain (d : DBConv) (ctx : Ctx) (orid : Nat) (anss : Bool) :
    Except PyErr (Option Event) := do
  let ev0 ← get_event d ctx (some orid) none anss
  match ev0 with
  | some e => pure (some e)
  | none => get_event_from_origin d ctx orid anss

/-- Embeds `DatabaseConverter.extract_origin`: assemble a QML Event for an orid.
Item assignment on a `None` event is a TypeError; the arrival-attachment
and quality-update blocks are `try/except`-swallowed in the source and
modelled as total. -/
def extract_origin (d : DBConv) (ctx : Ctx) (orid : Nat)
    (origin magnitude pick focalMechanism stationMagnitude anss : Bool) :
    Except PyErr (Option Event) := do
  let ev1 ← eventChain d ctx orid anss
  let ev2 ←
    if origin then do
      let os ← get_origins d ctx (some orid) none
      match os with
      | [] => Except.error (.valueError (sMsgNoOrigins ++ natStr orid))
      | o :: rest =>
        match ev1 with
        | none => Except.error PyErr.typeError
        | some ev =>
          pure (some { ev with type := origin_event_type ctx o,
                               origin := some (o :: rest) })
    else pure ev1
  let ev3 ←
    if magnitude then do
      let mags ← get_magnitudes d ctx orid
      match ev2 with
      | none => Except.error PyErr.typeError
      | some ev => pure (some { ev with magnitude := some mags })
    else pure ev2
  let ev4 ←
    if pick then do
      let pas ← get_phases d ctx orid
      if origin ∧ ¬ pas.isEmpty then
        match ev3 with
        | none => Except.error PyErr.typeError
        | some ev =>
          let ps := pas.map Prod.fst
          let ars := pas.map Prod.snd
          let ev := { ev with pick := some ps }
          let ev :=
            match ev.origin with
            | some (o :: rest) =>
              { ev with origin := some ({ o with arrival := ars } :: rest) }
            | _ => ev
          let ev :=
            match ev.origin with
            | some os =>
              { ev with origin := some (os.map (fun o =>
                  { o with quality := d.qualityFromArrival o.arrival o.quality })) }
            | none => ev
          pure (some ev)
      else pure ev3
    else pure ev3
  let ev5 ←
    if focalMechanism then do
      let fps ← get_focalmechs d ctx orid
      match ev4 with
      | none => Except.error PyErr.typeError
      | some ev =>
        pure (some { ev with focalMechanism := some (get_mts d ctx orid ++ fps) })
    else pure ev4
  if stationMagnitude then do
    let _ ← get_station_magnitudes d ctx orid
    pure ev5
  else pure ev5

/- Concrete fixtures used by closed statements. -/

/-- A concrete interpretation of the real-math primitives (only used to
instantiate universally quantified statements at a point). -/
def rmath0 : RMath := { sqrt := id, cos := id, sin := id, pi := 3 }

def gen0 : RidGen := { schema := sSmi, authority_id := sLocal }

def sUuid0 : Str := "u0".data

def sAgencyXX : Str := "XX".data

/-- A concrete converter context with default configuration. -/
def ctx0 : Ctx :=
  { gen := gen0, uuid := sUuid0, agency := sAgencyXX,
    automatic_authors := [], etype_custom := [],
    utc := fun _ => none, R := rmath0 }

/-- An all-null origin row. -/
def originRow0 : OriginRow :=
  { lat := none, lon := none, depth := none, time := none, nass := none,
    ndef := none, sdobs := none, smajax := none, sminax := none,
    strike := none, sdepth := none, stime := none, conf := none,
    lddate := none, ml := none, mb := none, ms := none, orid := none,
    evid := none, mlid := none, mbid := none, msid := none, etype := none,
    auth := none }

/-- An all-null netmag row. -/
def netmagRow0 : NetmagRow :=
  { magid := none, orid := none, magnitude := none, uncertainty := none,
    nsta := none, lddate := none, magtype := none, auth := none }

/-- An all-null phase row. -/
def phaseRow0 : PhaseRow :=
  { sta := none, chan := none, fsta := none, fchan := none, snet := none,
    loc := none, qual := none, fm := none, auth := none, iphase := none,
    phase := none, timedef := none, vmodel := none, time := none,
    deltim := none, azimuth := none, delaz := none, slow := none,
    delslo := none, esaz := none, delta := none, timeres := none,
    wgt := none, lddate := none, arrivalLddate := none, arid := none,
    orid := none }

/-- An all-null fplane row. -/
def fplaneRow0 : FplaneRow :=
  { orid := none, mechid := none, mtid := none, algorithm := none,
    auth := none, str1 := none, dip1 := none, rake1 := none, str2 := none,
    dip2 := none, rake2 := none, taxazm := none, taxplg := none,
    paxazm := none, paxplg := none, lddate := none }

/- Shared helper lemmas. -/

/-- The classifier only ever returns one of the two coupled pairs. -/
theorem get_event_status_cases (autos : List Str) (author : Str) :
    get_event_status autos author = (sAutomatic, sPreliminary) ∨
    get_event_status autos author = (sManual, sReviewed) := by
  induction autos with
  | nil => exact Or.inr rfl
  | cons a rest ih =>
    rw [get_event_status]
    by_cases h : (author.isEmpty || strContains a author) = true
    · rw [if_pos h]; exact Or.inl rfl
    · rw [if_neg h]; exact ih

/-- Characterisation of the automatic branch of the classifier. -/
theorem get_event_status_eq_auto_iff (autos : List Str) (author : Str) :
    get_event_status autos author = (sAutomatic, sPreliminary) ↔
      autos ≠ [] ∧ (author = [] ∨ ∃ a ∈ autos, a <:+: author) := by
  induction autos with
  | nil =>
    constructor
    · intro h
      have h2 : (sManual, sReviewed) = (sAutomatic, sPreliminary) := h
      exact absurd h2 (by decide)
    · rintro ⟨h, -⟩; exact absurd rfl h
  | cons a rest ih =>
    rw [get_event_status]
    by_cases hcond : (author.isEmpty || strContains a author) = true
    · rw [if_pos hcond]
      refine ⟨fun _ => ⟨List.cons_ne_nil a rest, ?_⟩, fun _ => rfl⟩
      rcases Bool.or_eq_true_iff.mp hcond with h | h
      · exact Or.inl (List.isEmpty_iff.mp h)
      · exact Or.inr ⟨a, List.mem_cons_self a rest, of_decide_eq_true h⟩
    · rw [if_neg hcond]
      have h2 : ¬(author.isEmpty = true ∨ strContains a author = true) := by
        rw [← Bool.or_eq_true_iff]; exact hcond
      push_neg at h2
      obtain ⟨hempty, hinf⟩ := h2
      have hne : author ≠ [] := by
        intro he; subst he; exact hempty rfl
      have hnotinf : ¬(a <:+: author) := fun hi => hinf (decide_eq_true hi)
      rw [ih]
      constructor
      · rintro ⟨-, hcase⟩
        rcases hcase with h | ⟨x, hx, hxinf⟩
        · exact absurd h hne
        · exact ⟨List.cons_ne_nil a rest,
            Or.inr ⟨x, List.mem_cons_of_mem a hx, hxinf⟩⟩
      · rintro ⟨-, hcase⟩
        rcases hcase with h | ⟨x, hx, hxinf⟩
        · exact absurd h hne
        · rcases List.mem_cons.mp hx with hxa | hxr
          · subst hxa; exact absurd hxinf hnotinf
          · exact ⟨List.ne_nil_of_mem hxr, Or.inr ⟨x, hxr, hxinf⟩⟩

/-- C1 claim statement helpers: the two coupled evaluation pairs. -/
def coupledPairs : List (Str × Str) :=
  [(sAutomatic, sPreliminary), (sManual, sReviewed)]

/-- The coupled pairs as they appear on entities with optional fields. -/
def coupledPairsOpt : List (Option Str × Option Str) :=
  [(some sAutomatic, some sPreliminary), (some sManual, some sReviewed)]

/-- The coupled pairs as they appear on network magnitudes. -/
def coupledPairsNet : List (Option Str × Str) :=
  [(some sAutomatic, sPreliminary), (some sManual, sReviewed)]

/-- C1: counterexample.  With an empty configured automatic-author list the
classifier maps the empty author string to ("manual", "reviewed"), whereas
the claim requires ("automatic", "preliminary") for every empty author. -/
theorem c1_empty_author_counterexample :
    get_event_status [] [] = (sManual, sReviewed) ∧
    (sManual, sReviewed) ≠ (sAutomatic, sPreliminary) :=
  ⟨rfl, by decide⟩

/-- C1 (amended): `get_event_status` is total, never returns anything but
the two coupled pairs, and returns ("automatic", "preliminary") exactly
when the configured automatic-author list is non-empty and the author
string is empty or contains a configured substring (case-sensitive);
otherwise — in particular for an empty author with an empty configured
list — it returns ("manual", "reviewed"). -/
theorem c1_get_event_status_spec (autos : List Str) (author : Str) :
    (get_event_status autos author = (sAutomatic, sPreliminary) ↔
      autos ≠ [] ∧ (author = [] ∨ ∃ a ∈ autos, a <:+: author)) ∧
    (get_event_status autos author = (sAutomatic, sPreliminary) ∨
     get_event_status autos author = (sManual, sReviewed)) :=
  ⟨get_event_status_eq_auto_iff autos author,
   get_event_status_cases autos author⟩

/-- The evaluation pair of a fallible FocalMechanism conversion. -/
def fmPairOf : Except PyErr FocalMech → Option (Option Str × Option Str)
  | .ok fm => some (fm.evaluationMode, fm.evaluationStatus)
  | .error _ => none

/-- The evaluation pair of a fallible Pick conversion. -/
def pickPairOf : Except PyErr Pick → Option (Str × Str)
  | .ok p => some (p.evaluationMode, p.evaluationStatus)
  | .error _ => none

/-- C10: for every input record, the origins, network magnitudes, fplane
focal mechanisms and picks emitted by the converter carry a coupled
evaluation pair — (automatic ↔ preliminary) and (manual ↔ reviewed); the
cross pairs never occur for these entities. -/
theorem c10_evaluation_pair_coupled (ctx : Ctx) (db : OriginRow)
    (ndb : NetmagRow) (fdb : FplaneRow) (pdb : PhaseRow) :
    ((map_origin2origin ctx db).evaluationMode,
      (map_origin2origin ctx db).evaluationStatus) ∈ coupledPairs ∧
    ((map_netmag2magnitude ctx ndb).evaluationMode,
      (map_netmag2magnitude ctx ndb).evaluationStatus) ∈ coupledPairsNet ∧
    ((fmPairOf (map_fplane2focalmech ctx fdb)).all
      (fun pr => decide (pr ∈ coupledPairsOpt)) = true) ∧
    ((pickPairOf (map_arrival2pick ctx pdb)).all
      (fun pr => decide (pr ∈ coupledPairs)) = true) := by
  refine ⟨?_, ?_, ?_, ?_⟩
  · rcases get_event_status_cases ctx.automatic_authors (pyStrOf db.auth)
      with h | h <;>
    · simp only [map_origin2origin, h, coupledPairs]
      simp
  · rcases get_event_status_cases ctx.automatic_authors (pyStrOf ndb.auth)
      with h | h <;>
    · simp only [map_netmag2magnitude, h, coupledPairsNet]
      simp
  · cases halg : fdb.algorithm with
    | none => simp [map_fplane2focalmech, halg, fmPairOf]
    | some alg =>
      cases hau : fdb.auth with
      | none => simp [map_fplane2focalmech, halg, hau, fmPairOf]
      | some au =>
        rcases get_event_status_cases ctx.automatic_authors
            (pyStrOf fdb.auth) with h | h <;>
        · simp only [map_fplane2focalmech, halg, hau, fmPairOf, hau ▸ h]
          simp [hau ▸ h, coupledPairsOpt]
  · cases ht : pdb.time with
    | none => simp [map_arrival2pick, ht, pickPairOf]
    | some t =>
      by_cases hc : strContains sOrbassoc (pyStrOf pdb.auth) = true <;>
      · simp [map_arrival2pick, ht, pickPairOf, hc, coupledPairs]
        try exact Or.inl (Or.inl (by decide))

def sMw : Str := "mw".data

def sMd : Str := "md".data

def sMr : Str := "mr".data

def idA : Str := "m1".data

def idB : Str := "m2".data

def idC : Str := "m3".data

def idD : Str := "m4".data

/-- The magnitude list of the preferred-magnitude scenario: types
md, mw, mw, ml with distinct ids. -/
def magsEx : List MagRec :=
  [⟨some sMd, idA⟩, ⟨some sMw, idB⟩, ⟨some sMw, idC⟩, ⟨some sMl, idD⟩]

/-- The `types` dict lookup is the last record (in input order) whose
lowercased type equals the key. -/
theorem magTypesGet_eq (mags : List MagRec) (key : Str) :
    magTypesGet mags key =
      (mags.reverse.find? (fun m => pyLower (pyStrOf m.type) == key)).map
        (·.publicID) := by
  unfold magTypesGet
  rw [← List.map_reverse, List.find?_map, Option.map_map]
  rfl

/-- C3: `find_preferred_mag` returns the publicID of the last magnitude in
input order whose lowercased type equals the first priority type (in
priority-list order) occurring in the list, `none` when no priority type
occurs; on the md/mw/mw/ml scenario, priority [mw, ml] yields the last mw
id and priority [mr, ml, md] yields the ml id. -/
theorem c3_find_preferred_mag (mags : List MagRec) (prefs : List Str) :
    (find_preferred_mag mags prefs =
      (prefs.find? (fun p =>
        mags.any (fun m => pyLower (pyStrOf m.type) == pyLower p))).bind
        (fun p => (mags.reverse.find?
          (fun m => pyLower (pyStrOf m.type) == pyLower p)).map
          (·.publicID))) ∧
    find_preferred_mag magsEx [sMw, sMl] = some idC ∧
    find_preferred_mag magsEx [sMr, sMl, sMd] = some idD := by
  refine ⟨?_, by decide, by decide⟩
  induction prefs with
  | nil => rfl
  | cons p rest ih =>
    rw [find_preferred_mag, magTypesGet_eq]
    by_cases hany :
        mags.any (fun m => pyLower (pyStrOf m.type) == pyLower p) = true
    · have hpos : List.find? (fun q =>
          mags.any (fun m => pyLower (pyStrOf m.type) == pyLower q))
          (p :: rest) = some p := by
        rw [List.find?_cons_of_pos]
        exact hany
      rw [hpos]
      have hsome : (mags.reverse.find?
          (fun m => pyLower (pyStrOf m.type) == pyLower p)).isSome := by
        rw [List.find?_isSome]
        obtain ⟨x, hx, hpx⟩ := List.any_eq_true.mp hany
        exact ⟨x, List.mem_reverse.mpr hx, hpx⟩
      obtain ⟨m, hm⟩ := Option.isSome_iff_exists.mp hsome
      simp only [Option.some_bind]
      rw [hm]
      rfl
    · have hneg : List.find? (fun q =>
          mags.any (fun m => pyLower (pyStrOf m.type) == pyLower q))
          (p :: rest) = List.find? (fun q =>
          mags.any (fun m => pyLower (pyStrOf m.type) == pyLower q)) rest := by
        rw [List.find?_cons_of_neg]
        simpa using hany
      rw [hneg]
      have hnone : mags.reverse.find?
          (fun m => pyLower (pyStrOf m.type) == pyLower p) = none := by
        rw [List.find?_eq_none]
        intro x hx
        have hx2 := List.mem_reverse.mp hx
        intro hpx
        exact hany (List.any_eq_true.mpr ⟨x, hx2, hpx⟩)
      rw [hnone]
      simpa using ih

def sLupper : Str := "L".data

def sZz : Str := "zz".data

/-- A converter configured with the custom etype map `{"L": "earthquake"}`. -/
def ctxL : Ctx := { ctx0 with etype_custom := [(sLupper, sEarthquake)] }

/-- A key absent from both the custom and the default etype map yields no
dict entry. -/
theorem dictGet_eq_none_of (pairs : List (Str × Str)) (key : Str)
    (h : ∀ pr ∈ pairs, pr.1 ≠ key) : dictGet pairs key = none := by
  unfold dictGet
  have hfind : pairs.reverse.find? (fun p => p.1 == key) = none := by
    rw [List.find?_eq_none]
    intro x hx
    simpa using h x (List.mem_reverse.mp hx)
  rw [hfind]
  rfl

/-- C9: a converter configured with `{"L": "earthquake"}` resolves legacy
code "L" — directly and through an origin tagged with it — to
"earthquake", and any code covered by neither the configured nor the
default map resolves to "not reported". -/
theorem c9_event_type_resolution :
    (get_event_type ctxL sLupper = sEarthquake ∧
     origin_event_type ctxL
       (map_origin2origin ctxL { originRow0 with etype := some sLupper }) =
       sEarthquake) ∧
    ∀ (ctx : Ctx) (etype : Str),
      (∀ pr ∈ ctx.etype_custom, pr.1 ≠ etype) →
      (∀ pr ∈ ETYPE_MAP, pr.1 ≠ etype) →
      get_event_type ctx etype = sNotReported := by
  refine ⟨⟨by decide, by decide⟩, ?_⟩
  intro ctx etype h1 h2
  unfold get_event_type
  rw [dictGet_eq_none_of _ _ h1, dictGet_eq_none_of _ _ h2]

/-- C9 witness: the unmapped code "zz" resolves to "not reported" under
the `{"L": "earthquake"}` configuration. -/
theorem c9_event_type_resolution_witness :
    get_event_type ctxL sZz = sNotReported :=
  c9_event_type_resolution.2 ctxL sZz (by decide) (by decide)

def sQuakeml : Str := "quakeml".data

def sFoo : Str := "foo".data

def sBar : Str := "bar".data

def sFooHashBar : Str := "foo#bar".data

def sQLfoobar : Str := "quakeml:local/foo#bar".data

/-- The generator of the identifier scenario:
`ResourceURIGenerator("quakeml", "local")`. -/
def genQL : RidGen := { schema := sQuakeml, authority_id := sLocal }

/-- C2: counterexample.  Two calls with different non-empty resource ids —
"foo#bar" without a local id, and "foo" with local id "bar" — return the
very same string, so the claimed global injectivity in `resource_id`
fails. -/
theorem c2_collision_counterexample :
    ridCall genQL sUuid0 (some sFooHashBar) none none none =
      ridCall genQL sUuid0 (some sFoo) (some sBar) none none ∧
    sFooHashBar ≠ sFoo ∧
    sFooHashBar.isEmpty = false ∧ sFoo.isEmpty = false := by
  refine ⟨by decide, by decide, by decide, by decide⟩

/-- The fragment appended for a supplied local id (empty when falsy). -/
def fragOf : Option Str → Str
  | some l => if l.isEmpty then [] else sHash ++ l
  | none => []

/-- C2 (amended): for a non-empty resource id the generated identifier is
exactly `"{schema}:{authority}/{resource_id}"` with `"#{local_id}"`
appended iff a non-empty local id is supplied (per-call overrides winning
over the configured parts); the call is deterministic (independent of the
random-fallback source), the quakeml/local example produces
"quakeml:local/foo#bar", and calls agreeing on schema, authority and
local id are injective in the resource id. -/
theorem c2_rid_generator (g : RidGen) (u u2 r r2 : Str)
    (lid aid sov : Option Str)
    (hr : r.isEmpty = false) (hr2 : r2.isEmpty = false) :
    (ridCall g u (some r) lid aid sov =
      pyOrStr sov g.schema ++ sColon ++ pyOrStr aid g.authority_id ++
        sSlash ++ r ++ fragOf lid) ∧
    (ridCall g u (some r) lid aid sov = ridCall g u2 (some r) lid aid sov) ∧
    (ridCall genQL u (some sFoo) (some sBar) none none = sQLfoobar) ∧
    (ridCall g u (some r) lid aid sov = ridCall g u2 (some r2) lid aid sov →
      r = r2) := by
  have hfmt : ∀ (g' : RidGen) (u' r' : Str) (lid' aid' sov' : Option Str),
      r'.isEmpty = false →
      ridCall g' u' (some r') lid' aid' sov' =
        pyOrStr sov' g'.schema ++ sColon ++ pyOrStr aid' g'.authority_id ++
          sSlash ++ r' ++ fragOf lid' := by
    intro g' u' r' lid' aid' sov' hr'
    unfold ridCall fragOf
    cases lid' with
    | none => simp [hr']
    | some l =>
      by_cases hl : l.isEmpty = true
      · simp [hr', hl]
      · simp [hr', hl, List.append_assoc]
  refine ⟨hfmt g u r lid aid sov hr, ?_, ?_, ?_⟩
  · rw [hfmt g u r lid aid sov hr, hfmt g u2 r lid aid sov hr]
  · rw [hfmt genQL u sFoo (some sBar) none none (by decide)]
    decide
  · intro heq
    rw [hfmt g u r lid aid sov hr, hfmt g u2 r2 lid aid sov hr2] at heq
    exact List.append_cancel_left (List.append_cancel_right heq)

/-- C2 witness: the format equation, determinism, example and injectivity
instantiated at the quakeml/local generator with resource ids "foo" and
"bar" and no overrides. -/
theorem c2_rid_generator_witness :
    ridCall genQL sUuid0 (some sFoo) none none none =
      pyOrStr none genQL.schema ++ sColon ++
        pyOrStr none genQL.authority_id ++ sSlash ++ sFoo ++ fragOf none :=
  (c2_rid_generator genQL sUuid0 sUuid0 sFoo sBar none none none
    (by decide) (by decide)).1

/-- An origin row with a full, yet zero-azimuth, error ellipse. -/
def oRowZeroStrike : OriginRow :=
  { originRow0 with lat := some 40, lon := some (-119),
                    smajax := some 1, sminax := some 1, strike := some 0 }

/-- C4: counterexample.  All of smajax, sminax, strike are present, yet —
strike being 0.0 and hence falsy for the `all([a, b, s])` check — the code
emits neither positional uncertainties nor an originUncertainty block,
where the claim requires both. -/
theorem c4_zero_strike_counterexample :
    oRowZeroStrike.smajax = some 1 ∧ oRowZeroStrike.sminax = some 1 ∧
    oRowZeroStrike.strike = some 0 ∧
    (map_origin2origin ctx0 oRowZeroStrike).originUncertainty = none ∧
    (map_origin2origin ctx0 oRowZeroStrike).latitude =
      some ⟨some 40, none⟩ := by
  refine ⟨rfl, rfl, rfl, ?_, ?_⟩ <;>
    simp [map_origin2origin, _km2m, oRowZeroStrike, originRow0, _quan]

/-- C4 (amended): when smajax, sminax and strike are all present and all
non-zero, the mapped origin carries a latitude uncertainty
`_m2deg_lat(_eval_ellipse(1000a, 1000b, strike))`, a longitude uncertainty
`_m2deg_lon(_eval_ellipse(1000a, 1000b, strike-90), lat-or-0)` and an
originUncertainty block with the converted axes, the strike azimuth and
`conf*100` exactly when conf is present; when any of the three is absent
(and likewise when any is zero) all of these are absent. -/
theorem c4_origin_uncertainty (ctx : Ctx) (db : OriginRow) :
    (∀ a b s : ℚ, db.smajax = some a → db.sminax = some b →
      db.strike = some s → a ≠ 0 → b ≠ 0 → s ≠ 0 →
      ((map_origin2origin ctx db).originUncertainty =
        some { preferredDescription := sUncEllipse,
               maxHorizontalUncertainty := a * 1000,
               minHorizontalUncertainty := b * 1000,
               azimuthMaxHorizontalUncertainty := s,
               confidenceLevel := db.conf.map (· * 100) } ∧
       (map_origin2origin ctx db).latitude =
         _quan db.lat (some (_m2deg_lat
           (_eval_ellipse ctx.R (a * 1000) (b * 1000) s))) ∧
       (map_origin2origin ctx db).longitude =
         _quan db.lon (some (_m2deg_lon ctx.R
           (_eval_ellipse ctx.R (a * 1000) (b * 1000) (s - 90))
           (pyOrQ db.lat 0))))) ∧
    ((db.smajax = none ∨ db.sminax = none ∨ db.strike = none) →
      ((map_origin2origin ctx db).originUncertainty = none ∧
       (map_origin2origin ctx db).latitude = _quan db.lat none ∧
       (map_origin2origin ctx db).longitude = _quan db.lon none)) := by
  constructor
  · intro a b s ha hb hs ha0 hb0 hs0
    have hcond : ¬(a * 1000 = 0 ∨ b * 1000 = 0 ∨ s = 0) := by
      push_neg
      exact ⟨mul_ne_zero ha0 (by norm_num),
             mul_ne_zero hb0 (by norm_num), hs0⟩
    refine ⟨?_, ?_, ?_⟩ <;>
    · simp only [map_origin2origin, ha, hb, hs, _km2m, Option.map_some',
        _get_NE_on_ellipse]
      rw [if_neg hcond]
      rfl
  · intro h
    rcases h with h | h | h
    · refine ⟨?_, ?_, ?_⟩ <;>
        simp [map_origin2origin, h, _km2m]
    · cases hA : db.smajax with
      | none => refine ⟨?_, ?_, ?_⟩ <;> simp [map_origin2origin, hA, _km2m]
      | some a =>
        refine ⟨?_, ?_, ?_⟩ <;> simp [map_origin2origin, hA, h, _km2m]
    · cases hA : db.smajax with
      | none => refine ⟨?_, ?_, ?_⟩ <;> simp [map_origin2origin, hA, _km2m]
      | some a =>
        cases hB : db.sminax with
        | none =>
          refine ⟨?_, ?_, ?_⟩ <;> simp [map_origin2origin, hA, hB, _km2m]
        | some b =>
          refine ⟨?_, ?_, ?_⟩ <;>
            simp [map_origin2origin, hA, hB, h, _km2m]

/-- An origin row with a complete uncertainty ellipse. -/
def oRowEll : OriginRow :=
  { originRow0 with lat := some 40, lon := some (-119),
                    smajax := some 1, sminax := some 2, strike := some 90,
                    conf := some (1/2) }

/-- C4 witness: the amended statement instantiated on a concrete row with
`smajax=1, sminax=2, strike=90, conf=0.5`. -/
theorem c4_origin_uncertainty_witness :
    (map_origin2origin ctx0 oRowEll).originUncertainty =
      some { preferredDescription := sUncEllipse,
             maxHorizontalUncertainty := (1 : ℚ) * 1000,
             minHorizontalUncertainty := (2 : ℚ) * 1000,
             azimuthMaxHorizontalUncertainty := (90 : ℚ),
             confidenceLevel := oRowEll.conf.map (· * 100) } ∧
    (map_origin2origin ctx0 oRowEll).latitude =
      _quan oRowEll.lat (some (_m2deg_lat
        (_eval_ellipse ctx0.R ((1 : ℚ) * 1000) ((2 : ℚ) * 1000) 90))) ∧
    (map_origin2origin ctx0 oRowEll).longitude =
      _quan oRowEll.lon (some (_m2deg_lon ctx0.R
        (_eval_ellipse ctx0.R ((1 : ℚ) * 1000) ((2 : ℚ) * 1000) (90 - 90))
        (pyOrQ oRowEll.lat 0))) :=
  (c4_origin_uncertainty ctx0 oRowEll).1 1 2 90 rfl rfl rfl
    (by decide) (by decide) (by decide)

def sHashpy : Str := "HASHpy".data

def sTom : Str := "tom".data

/-- An fplane row with author fields present but null plane columns. -/
def fplaneRowAu : FplaneRow :=
  { fplaneRow0 with algorithm := some sHashpy, auth := some sTom }

/-- C5: counterexample.  On an fplane row whose `str1` column is null the
mapper emits a nodal-plane strike Quantity mapping whose value is null —
the raw `Dict(value=...)` construction, not `_quan` — so a null-valued
Quantity does appear in mapper output. -/
theorem c5_null_quantity_counterexample :
    ∃ fm, map_fplane2focalmech ctx0 fplaneRowAu = Except.ok fm ∧
      fm.nodalPlanes.nodalPlane1.strike.value = none :=
  ⟨_, rfl, rfl⟩

/-- The null-value invariant for an optional Quantity mapping. -/
def noNullValue {α β : Type} : Option (Quan α β) → Prop
  | none => True
  | some q => q.value ≠ none

/-- Propositional elimination over a fallible conversion: the property
holds of the result whenever the conversion succeeds. -/
def exceptElim {ε α : Type} (e : Except ε α) (P : α → Prop) : Prop :=
  match e with
  | .ok a => P a
  | .error _ => True

/-- Embeds `_quan` never builds a Quantity with a null value. -/
theorem noNullValue_quan {α β : Type} (v : Option α) (u : Option β) :
    noNullValue (_quan v u) := by
  cases v <;> simp [_quan, noNullValue]

/-- C5 (amended): every Quantity built through `_quan` — origin latitude,
longitude, depth and time, the netmag and origin-embedded magnitude
values, pick time, backazimuth and horizontal slowness, and the mt scalar
moment — is either absent or carries a non-null value; the invariant does
not extend to the raw value dicts of the fplane/mt nodal planes, principal
axes, tensor components and the stamag magnitude. -/
theorem c5_quan_no_null_value (ctx : Ctx) (db : OriginRow)
    (ndb : NetmagRow) (pdb : PhaseRow) (mdb : MtRow) (mtype : Str) :
    noNullValue (map_origin2origin ctx db).latitude ∧
    noNullValue (map_origin2origin ctx db).longitude ∧
    noNullValue (map_origin2origin ctx db).depth ∧
    noNullValue (map_origin2origin ctx db).time ∧
    noNullValue (map_netmag2magnitude ctx ndb).mag ∧
    exceptElim (map_origin2magnitude ctx db mtype)
      (fun m => noNullValue m.mag) ∧
    exceptElim (map_arrival2pick ctx pdb)
      (fun p => noNullValue p.time ∧ noNullValue p.backazimuth ∧
        noNullValue p.horizontalSlowness) ∧
    Option.elim (map_mt2focalmech ctx mdb).momentTensor True
      (fun mt => noNullValue mt.scalarMoment) := by
  refine ⟨noNullValue_quan _ _, noNullValue_quan _ _, noNullValue_quan _ _,
    noNullValue_quan _ _, noNullValue_quan _ _, ?_, ?_, ?_⟩
  · cases hau : db.auth with
    | none => simp [map_origin2magnitude, hau, exceptElim]
    | some au =>
      simp only [map_origin2magnitude, hau, exceptElim]
      exact noNullValue_quan _ _
  · cases ht : pdb.time with
    | none => simp [map_arrival2pick, ht, exceptElim]
    | some t =>
      simp only [map_arrival2pick, ht, exceptElim]
      exact ⟨noNullValue_quan _ _, noNullValue_quan _ _,
        noNullValue_quan _ _⟩
  · simp only [map_mt2focalmech, Option.elim]
    exact noNullValue_quan _ _

/-- An origin row with a magnitude but a missing author. -/
def oRowNoAuth : OriginRow :=
  { originRow0 with orid := some 1, ml := some (5 / 2) }

/-- C7: counterexample.  With a missing `auth` column,
`map_origin2magnitude` raises (AttributeError from `None.startswith`),
and with missing `algorithm`/`auth` columns `map_fplane2focalmech`
raises (TypeError from joining over None) — the degraded-field policy of
the claim does not hold for these mappers. -/
theorem c7_mapper_raises_counterexample :
    map_origin2magnitude ctx0 oRowNoAuth sMl =
      Except.error PyErr.attributeError ∧
    map_fplane2focalmech ctx0 fplaneRow0 = Except.error PyErr.typeError :=
  ⟨rfl, rfl⟩

/-- C7 (amended): the entity mappers return their entity without raising
provided the author-derived columns are present: `map_origin2magnitude`
whenever `auth` is non-null (other columns may all be missing), and
`map_fplane2focalmech` whenever both `algorithm` and `auth` are non-null;
each then yields absent output fields for the missing columns. -/
theorem c7_mapper_totality (ctx : Ctx) (db : OriginRow) (fdb : FplaneRow)
    (mtype : Str) (au alg fau : Str) :
    (db.auth = some au →
      ∃ m, map_origin2magnitude ctx db mtype = Except.ok m) ∧
    (fdb.algorithm = some alg → fdb.auth = some fau →
      ∃ fm, map_fplane2focalmech ctx fdb = Except.ok fm) := by
  constructor
  · intro h
    rw [map_origin2magnitude, h]
    exact ⟨_, rfl⟩
  · intro h1 h2
    rw [map_fplane2focalmech, h1, h2]
    exact ⟨_, rfl⟩

def sBob : Str := "bob".data

def sDbhash : Str := "dbhash".data

/-- An origin row with only an author. -/
def oRowOnlyAuth : OriginRow := { originRow0 with auth := some sBob }

/-- An fplane row with only algorithm and author. -/
def fplaneRowB : FplaneRow :=
  { fplaneRow0 with algorithm := some sDbhash, auth := some sBob }

/-- C7 witness: both mappers succeed on rows where only the author-derived
columns are present. -/
theorem c7_mapper_totality_witness :
    (∃ m, map_origin2magnitude ctx0 oRowOnlyAuth sMl = Except.ok m) ∧
    (∃ fm, map_fplane2focalmech ctx0 fplaneRowB = Except.ok fm) :=
  ⟨(c7_mapper_totality ctx0 oRowOnlyAuth fplaneRowB sMl sBob sDbhash
      sBob).1 rfl,
   (c7_mapper_totality ctx0 oRowOnlyAuth fplaneRowB sMl sBob sDbhash
      sBob).2 rfl rfl⟩

def sDbml : Str := "dbml".data

/-- An origin row with a magnitude, an author and no `mlid` link. -/
def oRowMlAuth : OriginRow :=
  { originRow0 with orid := some 1, ml := some (5 / 2), auth := some sDbml }

/-- An origin row whose `ml` column is present but zero. -/
def oRowMlZero : OriginRow :=
  { originRow0 with orid := some 2, ml := some 0, auth := some sDbml }

/-- A database with no netmag rows whose origin row has a zero `ml`. -/
def dbcMlZero : DBConv :=
  { originsByOrid := fun _ => [], originsByEvid := fun _ => [],
    originRowByOrid := fun _ => some oRowMlZero,
    evidOfOrid := fun _ => none, eventRowByEvid := fun _ => none,
    netmagsByOrid := fun _ => [], phaseRowsByOrid := fun _ => [],
    fplanesByOrid := fun _ => [], mtsByOrid := fun _ => [],
    qualityFromArrival := fun _ q => q }

def sPubMl1 : Str := "smi:local/origin-ml/1".data

/-- C8: counterexample.  The synthesized publicID of the origin-embedded
"ml" magnitude is "smi:local/origin-ml/1": the type code sits in the
resource path, and no "#" occurs, so no "#ml" fragment is present as the
claim requires; moreover a present-but-zero `ml` column (non-null) yields
no magnitude at all through the magnitude fallback. -/
theorem c8_fragment_counterexample :
    (∃ m, map_origin2magnitude ctx0 oRowMlAuth sMl = Except.ok m ∧
      m.publicID = sPubMl1 ∧ m.publicID.contains '#' = false) ∧
    oRowMlZero.ml = some 0 ∧
    get_magnitudes dbcMlZero ctx0 2 = Except.ok [] :=
  ⟨⟨_, rfl, by decide, by decide⟩, rfl, rfl⟩

/-- The generated URI for a truthy resource id, in terms of the configured
schema and authority. -/
theorem uriOf_eq (ctx : Ctx) (rid : Str) (h : rid.isEmpty = false) :
    uriOf ctx rid =
      ctx.gen.schema ++ sColon ++ ctx.gen.authority_id ++ sSlash ++ rid := by
  unfold uriOf ridCall
  simp [h, pyOrStr]

/-- C8 (amended): for an origin row with a truthy `ml` column, no `mlid`
link, a present author and a truthy orid, and a database with no netmag
rows, the magnitude conversion yields exactly one Magnitude of type "ml"
whose value is the origin row's `ml` column; its publicID is the generated
URI over resource path "origin-ml/<orid>", which contains the orid digits
and the type code "ml" as path components (not as a "#" fragment). -/
theorem c8_ml_fallback (d : DBConv) (ctx : Ctx) (orid : Nat)
    (db : OriginRow) (m : ℚ) (n : Nat) (au : Str)
    (hnet : d.netmagsByOrid orid = [])
    (hrow : d.originRowByOrid orid = some db)
    (hml : db.ml = some m) (hm0 : m ≠ 0)
    (hmb : db.mb = none) (hms : db.ms = none)
    (hmlid : db.mlid = none)
    (hau : db.auth = some au)
    (horid : db.orid = some n) (hn : n ≠ 0) :
    ∃ mag, get_magnitudes d ctx orid = Except.ok [mag] ∧
      mag.type = some sMl ∧
      mag.mag = some ⟨some m, none⟩ ∧
      mag.publicID = uriOf ctx (sOriginDash ++ sMl ++ sSlash ++ natStr n) ∧
      sMl <:+: mag.publicID ∧
      natStr n <:+: mag.publicID := by
  have hcol1 : magCol db sMl = some m := by
    rw [magCol, if_pos rfl]; exact hml
  have hcol2 : magCol db sMb = none := by
    rw [magCol, if_neg (by decide), if_pos rfl]; exact hmb
  have hcol3 : magCol db sMs = none := by
    rw [magCol, if_neg (by decide), if_neg (by decide), if_pos rfl]
    exact hms
  have htr : pyTruthyQ (magCol db sMl) = true := by
    rw [hcol1]; simp [pyTruthyQ, hm0]
  have htr2 : pyTruthyQ (magCol db sMb) = false := by rw [hcol2]; rfl
  have htr3 : pyTruthyQ (magCol db sMs) = false := by rw [hcol3]; rfl
  have hfil : [sMl, sMb, sMs].filter (fun t => pyTruthyQ (magCol db t)) =
      [sMl] := by
    simp only [List.filter_cons, htr, htr2, htr3]
    simp
  have hid : magIdCol db sMl = none := by
    rw [magIdCol, if_pos rfl]; exact hmlid
  have hkey : pyKey db.orid ctx.uuid = natStr n := by
    rw [horid, pyKey, if_neg hn]
  have hmag : map_origin2magnitude ctx db sMl = Except.ok
      { publicID := uriOf ctx (sOriginDash ++ sMl ++ sSlash ++ natStr n),
        mag := some ⟨some m, none⟩,
        type := some sMl,
        stationCount := none,
        originID := uriOf ctx (sOriginSlash ++ natStr n),
        evaluationMode := none,
        evaluationStatus :=
          if sOrb.isPrefixOf au then sPreliminary else sReviewed,
        creationInfo := { creationTime := ctx.utc db.lddate,
                          agencyID := ctx.agency,
                          author := some au,
                          version := db.orid.map natStr } } := by
    rw [map_origin2magnitude, hau]
    rw [hid]
    rw [hkey]
    rw [hcol1]
    rfl
  have hrid : (sOriginDash ++ sMl ++ sSlash ++ natStr n).isEmpty = false :=
    rfl
  refine ⟨{ publicID := uriOf ctx (sOriginDash ++ sMl ++ sSlash ++ natStr n),
            mag := some ⟨some m, none⟩,
            type := some sMl,
            stationCount := none,
            originID := uriOf ctx (sOriginSlash ++ natStr n),
            evaluationMode := none,
            evaluationStatus :=
              if sOrb.isPrefixOf au then sPreliminary else sReviewed,
            creationInfo := { creationTime := ctx.utc db.lddate,
                              agencyID := ctx.agency,
                              author := some au,
                              version := db.orid.map natStr } },
          ?_, rfl, rfl, rfl, ?_, ?_⟩
  · simp only [get_magnitudes, hnet, List.isEmpty_nil, eq_self_iff_true,
      if_true, hrow]
    rw [hfil, mapExcept, hmag, mapExcept]
  · rw [uriOf_eq ctx _ hrid]
    have h1 : sMl <:+: sOriginDash ++ sMl ++ sSlash ++ natStr n :=
      ⟨sOriginDash, sSlash ++ natStr n, by simp [List.append_assoc]⟩
    have h2 : (sOriginDash ++ sMl ++ sSlash ++ natStr n) <:+:
        ctx.gen.schema ++ sColon ++ ctx.gen.authority_id ++ sSlash ++
          (sOriginDash ++ sMl ++ sSlash ++ natStr n) :=
      ⟨ctx.gen.schema ++ sColon ++ ctx.gen.authority_id ++ sSlash, [],
        by simp [List.append_assoc]⟩
    exact h1.trans h2
  · rw [uriOf_eq ctx _ hrid]
    have h1 : natStr n <:+: sOriginDash ++ sMl ++ sSlash ++ natStr n :=
      ⟨sOriginDash ++ sMl ++ sSlash, [], by simp [List.append_assoc]⟩
    have h2 : (sOriginDash ++ sMl ++ sSlash ++ natStr n) <:+:
        ctx.gen.schema ++ sColon ++ ctx.gen.authority_id ++ sSlash ++
          (sOriginDash ++ sMl ++ sSlash ++ natStr n) :=
      ⟨ctx.gen.schema ++ sColon ++ ctx.gen.authority_id ++ sSlash, [],
        by simp [List.append_assoc]⟩
    exact h1.trans h2

/-- An origin row for the fallback witness. -/
def oRowMlW : OriginRow :=
  { originRow0 with orid := some 7, ml := some 3, auth := some sBob }

/-- A database with no netmag rows and the witness origin row. -/
def dbcMlW : DBConv :=
  { originsByOrid := fun _ => [], originsByEvid := fun _ => [],
    originRowByOrid := fun _ => some oRowMlW,
    evidOfOrid := fun _ => none, eventRowByEvid := fun _ => none,
    netmagsByOrid := fun _ => [], phaseRowsByOrid := fun _ => [],
    fplanesByOrid := fun _ => [], mtsByOrid := fun _ => [],
    qualityFromArrival := fun _ q => q }

/-- C8 witness: the amended statement instantiated on a concrete database
whose origin row 7 has `ml=3`. -/
theorem c8_ml_fallback_witness :
    ∃ mag, get_magnitudes dbcMlW ctx0 7 = Except.ok [mag] ∧
      mag.type = some sMl ∧
      mag.mag = some ⟨some 3, none⟩ ∧
      mag.publicID = uriOf ctx0 (sOriginDash ++ sMl ++ sSlash ++ natStr 7) ∧
      sMl <:+: mag.publicID ∧
      natStr 7 <:+: mag.publicID :=
  c8_ml_fallback dbcMlW ctx0 7 oRowMlW 3 7 sBob rfl rfl rfl (by decide)
    rfl rfl rfl rfl rfl (by decide)

/-- A database with no rows at all. -/
def dbcEmpty : DBConv :=
  { originsByOrid := fun _ => [], originsByEvid := fun _ => [],
    originRowByOrid := fun _ => none,
    evidOfOrid := fun _ => none, eventRowByEvid := fun _ => none,
    netmagsByOrid := fun _ => [], phaseRowsByOrid := fun _ => [],
    fplanesByOrid := fun _ => [], mtsByOrid := fun _ => [],
    qualityFromArrival := fun _ q => q }

/-- Whether an exception belongs to the three contract-violation classes
of the claim (InvalidArgument/NotFound as ValueError, NotImplemented). -/
def isContractError : PyErr → Bool
  | .valueError _ => true
  | .notImplementedError _ => true
  | _ => false

/-- C6: counterexample.  The pipeline has hard errors beyond the three
contract violations: requesting station magnitudes makes extract_origin
raise an AttributeError (the converter has no `convert_magnitudes`), which
is neither an InvalidArgument, a NotFound, nor a NotImplemented error. -/
theorem c6_extra_error_counterexample :
    extract_origin dbcEmpty ctx0 1 false false false false true false =
      Except.error PyErr.attributeError ∧
    isContractError PyErr.attributeError = false :=
  ⟨rfl, rfl⟩

/-- C6 (amended): among the claimed contract errors: `get_origins` raises
`ValueError("Need to specify an ORID or EVID")` exactly when called with
neither an orid nor an evid; `map_moment2focalmech` raises
NotImplementedError on every input; and — when the event lookup succeeds
and only origin data is requested — `extract_origin` raises
`ValueError("No origins for ORID: …")` exactly when the origin list for
the orid is empty, returning the assembled event otherwise.  These are
however not the only hard errors of the pipeline (see the
counterexample). -/
theorem c6_contract_errors :
    (∀ (d : DBConv) (ctx : Ctx),
      get_origins d ctx none none =
        Except.error (.valueError sMsgNeedOrid)) ∧
    (∀ (d : DBConv) (ctx : Ctx) (orid evid : Option Nat),
      orid ≠ none ∨ evid ≠ none →
      ∃ os, get_origins d ctx orid evid = Except.ok os) ∧
    (∀ db : MtRow, map_moment2focalmech db =
      Except.error (.notImplementedError sMsgNoMT)) ∧
    (∀ (d : DBConv) (ctx : Ctx) (orid : Nat) (ev : Event),
      eventChain d ctx orid false = Except.ok (some ev) →
      ((d.originsByOrid orid = [] →
        extract_origin d ctx orid true false false false false false =
          Except.error (.valueError (sMsgNoOrigins ++ natStr orid))) ∧
       (∀ r rs, d.originsByOrid orid = r :: rs →
        extract_origin d ctx orid true false false false false false =
          Except.ok (some { ev with
            type := origin_event_type ctx (map_origin2origin ctx r),
            origin := some ((r :: rs).map (map_origin2origin ctx)) })))) := by
  refine ⟨fun d ctx => rfl, ?_, fun db => rfl, ?_⟩
  · intro d ctx orid evid h
    cases orid with
    | some o => exact ⟨_, rfl⟩
    | none =>
      cases evid with
      | some e => exact ⟨_, rfl⟩
      | none =>
        rcases h with h | h <;> exact absurd rfl h
  · intro d ctx orid ev hev
    constructor
    · intro hrows
      simp only [extract_origin, hev, get_origins, hrows, List.map_nil,
        bind, Except.bind, if_true]
    · intro r rs hrows
      simp only [extract_origin, hev, get_origins, hrows, List.map_cons,
        bind, Except.bind, if_true, if_false, Bool.false_eq_true,
        pure, Except.pure]

/-- An event row with no columns set. -/
def eventRow0 : EventRow :=
  { evid := none, orid := none, prefor := none, lddate := none }

/-- A database holding one event row and no origins. -/
def dbcEvOnly : DBConv :=
  { originsByOrid := fun _ => [], originsByEvid := fun _ => [],
    originRowByOrid := fun _ => none,
    evidOfOrid := fun _ => none,
    eventRowByEvid := fun _ => some eventRow0,
    netmagsByOrid := fun _ => [], phaseRowsByOrid := fun _ => [],
    fplanesByOrid := fun _ => [], mtsByOrid := fun _ => [],
    qualityFromArrival := fun _ q => q }

/-- C6 witness: an orid-keyed origin query succeeds, and on a database
with an event but no origins the origin request fails NotFound. -/
theorem c6_contract_errors_witness :
    (∃ os, get_origins dbcEvOnly ctx0 (some 1) none = Except.ok os) ∧
    extract_origin dbcEvOnly ctx0 1 true false false false false false =
      Except.error (.valueError (sMsgNoOrigins ++ natStr 1)) :=
  ⟨c6_contract_errors.2.1 dbcEvOnly ctx0 (some 1) none
      (Or.inl (Option.some_ne_none 1)),
   (c6_contract_errors.2.2.2 dbcEvOnly ctx0 1 _ rfl).1 rfl⟩

end Qmlutil
